import Mathlib

/-!
Shallow embedding of the Enrichpedia frontend core: the type contracts
(`src/frontend/src/types/index.ts`), the repository client
(`src/frontend/src/services/api.ts` built on axios), the Home view-model
(`src/unnamed/part_000`: `fetchArticles`, `handleProcess`, pagination), the
Article detail page (`src/frontend/src/pages/Article.tsx`) and the
presentation helpers of `src/unnamed/part_001` (language badge, summary
truncation, `getScoreColor` and the quality-score bars).

Numbers: JS numeric score values are modelled as `Rat`; page counters and
HTTP statuses as `Nat`.  Async handlers are modelled as pure functions from
the pre-state and the settlement of their awaited network call to the
post-state plus an effect record (whether a network call was issued, whether
the list refresh was triggered, what was logged).
-/

/-- `QAScores` from `types/index.ts`. -/
structure QAScores where
  readability : Rat
  coherence : Rat
  redundancy : Rat
  neutrality : Rat
  human_likeness : Rat
  passed : Bool
  failed_metrics : List String
deriving DecidableEq

/-- `Article` from `types/index.ts` (`source_type` is one of `page | group`). -/
inductive SourceType where
  | page
  | group
deriving DecidableEq

structure Article where
  id : String
  title : String
  summary : Option String
  body : String
  language : String
  dialect : Option String
  source_url : String
  source_type : SourceType
  tags : List String
  categories : List String
  qa_scores : Option QAScores
  created_at : Option String
  updated_at : Option String
  status : String
deriving DecidableEq

/-- `ArticleListResponse` from `types/index.ts`. -/
structure ArticleListResponse where
  articles : List Article
  total : Nat
  page : Nat
  page_size : Nat
deriving DecidableEq

/-- `ProcessResponse` from `types/index.ts`. -/
structure ProcessResponse where
  success : Bool
  article_id : Option String
  message : String
  qa_scores : Option QAScores
deriving DecidableEq

/-!  Repository client (`services/api.ts`).

The client is built on an axios instance.  An HTTP exchange is modelled by
the status and typed body the backend answers with; axios resolves the
request when the status passes its default `validateStatus`
(`200 <= status < 300`) and otherwise rejects with a single error class
(`AxiosError`, an `Error` whose message is
`Request failed with status code N`).  `api.ts` adds no error mapping of its
own: `getArticle` just returns `response.data`.
-/

/-- The backend's answer to a by-id lookup: HTTP status and (on success) the
article body. -/
structure HttpArticleResponse where
  status : Nat
  data : Article
deriving DecidableEq

/-- The single error class every failed axios request rejects with: it
carries the HTTP status and a human-readable message.  `api.ts` defines no
other error type (in particular no separate not-found error). -/
inductive AxiosError where
  | httpFailure (status : Nat) (message : String)
deriving DecidableEq

/-- axios default `validateStatus`: resolve iff `200 <= status < 300`. -/
def validateStatus (status : Nat) : Bool :=
  decide (200 ≤ status) && decide (status < 300)

/-- The message an axios rejection carries. -/
def axiosMessage (status : Nat) : String :=
  "Request failed with status code " ++ toString status

/-- `getArticle(id)` from `api.ts`: `api.get` on `/articles/{id}` and return
`response.data`; any non-2xx answer surfaces as the axios rejection,
unmodified. -/
def getArticle (_id : String) (resp : HttpArticleResponse) :
    Except AxiosError Article :=
  if validateStatus resp.status then Except.ok resp.data
  else Except.error (AxiosError.httpFailure resp.status (axiosMessage resp.status))

/-- The error "kind" of a repository failure, i.e. which error class the
caller can discriminate on.  `api.ts` has exactly one. -/
def errKind : AxiosError → String
  | AxiosError.httpFailure _ _ => "AxiosError"

/-- `err.message`, as read by the catch blocks of the pages. -/
def errMessage : AxiosError → String
  | AxiosError.httpFailure _ m => m

/-!  Home view-model (`src/unnamed/part_000`). -/

/-- The `useState` fields of `Home`. -/
structure HomeState where
  articles : List Article
  loading : Bool
  page : Nat
  total : Nat
  processUrlField : String
  processing : Bool
  processResult : Option ProcessResponse
  processError : Option String
deriving DecidableEq

/-- The initial `useState` values of `Home`. -/
def initialHomeState : HomeState :=
  { articles := []
    loading := true
    page := 1
    total := 0
    processUrlField := ""
    processing := false
    processResult := none
    processError := none }

/-- `const pageSize = 12` in `Home`. -/
def pageSize : Nat := 12

/-- The synchronous prefix of `fetchArticles`: `setLoading(true)` before the
awaited repository call (list or search endpoint, depending on the query). -/
def fetchArticlesStart (s : HomeState) : HomeState :=
  { s with loading := true }

/-- The continuation of `fetchArticles` once its awaited call settles: on
success `setArticles`/`setTotal` from the response, on failure only
`console.error`; `finally` does `setLoading(false)`.  The second component is
the list of console-error logs emitted. -/
def fetchArticlesSettle (s : HomeState)
    (outcome : Except String ArticleListResponse) : HomeState × List String :=
  match outcome with
  | Except.ok r =>
      ({ s with articles := r.articles, total := r.total, loading := false }, [])
  | Except.error e =>
      ({ s with loading := false }, ["Failed to fetch articles: " ++ e])

/-- JS `String.prototype.trim`: strip leading and trailing whitespace
(structurally recursive so that it evaluates definitionally). -/
def jsTrim (s : String) : String :=
  String.mk (((s.data.dropWhile Char.isWhitespace).reverse.dropWhile
      Char.isWhitespace).reverse)

/-- Effects of one run of `handleProcess`: whether the POST `/process/` call
was issued and whether `fetchArticles()` was triggered. -/
structure SubmitEffects where
  networkCalled : Bool
  refreshTriggered : Bool
deriving DecidableEq

/-- `handleProcess` from `Home`, as a function of the pre-state and of how
the awaited `processUrl` call would settle (`Except` message / response).
`if (!processUrl_.trim()) return` guards the whole body; otherwise
`setProcessing(true)`, clear result and error, await the POST, store the
result (clearing the field and refreshing the list when `result.success`),
or store the error message in the catch; `finally` does
`setProcessing(false)`. -/
def handleProcess (s : HomeState) (outcome : Except String ProcessResponse) :
    HomeState × SubmitEffects :=
  if jsTrim s.processUrlField = "" then
    (s, { networkCalled := false, refreshTriggered := false })
  else
    let s1 := { s with processing := true, processResult := none, processError := none }
    match outcome with
    | Except.ok result =>
        let s2 := { s1 with processResult := some result }
        if result.success then
          ({ s2 with processUrlField := "", processing := false },
           { networkCalled := true, refreshTriggered := true })
        else
          ({ s2 with processing := false },
           { networkCalled := true, refreshTriggered := false })
    | Except.error msg =>
        ({ s1 with processError := some msg, processing := false },
         { networkCalled := true, refreshTriggered := false })

/-- The messages rendered next to the submission form: the
`processResult.message` block when a result is present, then the
`processError` block when an error is present. -/
def formMessages (s : HomeState) : List String :=
  (match s.processResult with
   | some r => [r.message]
   | none => []) ++
  (match s.processError with
   | some m => [m]
   | none => [])

/-- `Math.ceil(total / pageSize)` on naturals (`pageSize = 12 ≥ 1`). -/
def totalPages (total : Nat) : Nat := (total + pageSize - 1) / pageSize

/-- The Previous button handler: `setPage((p) => Math.max(1, p - 1))`. -/
def prevPage (p : Nat) : Nat := max 1 (p - 1)

/-- The Next button handler:
`setPage((p) => Math.min(totalPages, p + 1))`. -/
def nextPage (total p : Nat) : Nat := min (totalPages total) (p + 1)

/-!  Article detail page (`src/frontend/src/pages/Article.tsx`). -/

/-- The `useState` fields of the `Article` page after `fetchArticle` has
settled (`loading` back to `false` in every path). -/
structure DetailState where
  article : Option Article
  loading : Bool
  error : Option String
deriving DecidableEq

/-- `!id` on the `useParams` value: true for `undefined` and for the empty
string (JS falsiness). -/
def idMissing : Option String → Bool
  | none => true
  | some s => s.isEmpty

/-- `fetchArticle` from the `Article` page, as a function of the route id
and of how the awaited `getArticle` call would settle.  A missing id sets
the error text and stops before any network call; otherwise the awaited
result is stored, or the caught error's `.message` is stored; `finally`
does `setLoading(false)`.  The second component records whether the network
call was issued. -/
def fetchArticle (id : Option String) (outcome : Except AxiosError Article) :
    DetailState × Bool :=
  if idMissing id then
    ({ article := none, loading := false, error := some "Article ID not provided" }, false)
  else
    match outcome with
    | Except.ok a => ({ article := some a, loading := false, error := none }, true)
    | Except.error e =>
        ({ article := none, loading := false, error := some (errMessage e) }, true)

/-- What the `Article` page renders. -/
inductive DetailView where
  | loadingView
  | notFoundView (message : String)
  | articleView (a : Article)
deriving DecidableEq

/-- The render branches of the `Article` page: the spinner while loading;
the "Article Not Found" container when `error || !article`, showing
`error || 'The requested article could not be found.'`; else the detail. -/
def renderDetail (s : DetailState) : DetailView :=
  if s.loading then DetailView.loadingView
  else
    match s.article, s.error with
    | _, some m => DetailView.notFoundView m
    | none, none => DetailView.notFoundView "The requested article could not be found."
    | some a, none => DetailView.articleView a

/-!  Presentation helpers (`src/unnamed/part_001`). -/

/-- The language badge text, identical in `ArticleDetail` and `ArticleList`:
`article.language === 'ar' ? 'العربية' : 'English'`. -/
def languageLabel (language : String) : String :=
  if language = "ar" then "العربية" else "English"

/-- The list-card summary text:
`summary.length > 150 ? summary.substring(0, 150) + '...' : summary`. -/
def displaySummary (s : String) : String :=
  if 150 < s.length then s.take 150 ++ "..." else s

/-- `getScoreColor` from `ArticleDetail`. -/
def getScoreColor (score : Rat) : String :=
  if 75 ≤ score then "#10b981"
  else if 50 ≤ score then "#f59e0b"
  else "#ef4444"

/-- One rendered row of the Quality Scores card: label, bar width (percent),
bar color, and the numeric value printed next to the bar. -/
structure ScoreItem where
  label : String
  widthPct : Rat
  color : String
  value : Rat
deriving DecidableEq

/-- The five score rows of `ArticleDetail`, in source order.  Each bar's
width is the raw metric; each bar's color applies `getScoreColor` to the raw
metric except the Redundancy row, which applies it to
`100 - article.qa_scores.redundancy`; the printed value is always the raw
metric. -/
def scoreItems (qa : QAScores) : List ScoreItem :=
  [ { label := "Readability", widthPct := qa.readability,
      color := getScoreColor qa.readability, value := qa.readability }
  , { label := "Coherence", widthPct := qa.coherence,
      color := getScoreColor qa.coherence, value := qa.coherence }
  , { label := "Redundancy", widthPct := qa.redundancy,
      color := getScoreColor (100 - qa.redundancy), value := qa.redundancy }
  , { label := "Neutrality", widthPct := qa.neutrality,
      color := getScoreColor qa.neutrality, value := qa.neutrality }
  , { label := "Human-likeness", widthPct := qa.human_likeness,
      color := getScoreColor qa.human_likeness, value := qa.human_likeness } ]

/-!  Concrete fixtures used by counterexamples and witnesses. -/

def articleOne : Article :=
  { id := "a1", title := "Article one", summary := none, body := "body one",
    language := "en", dialect := none,
    source_url := "https://facebook.com/pageone", source_type := SourceType.page,
    tags := [], categories := [], qa_scores := none,
    created_at := none, updated_at := none, status := "published" }

def articleTwo : Article :=
  { id := "a2", title := "Article two", summary := none, body := "body two",
    language := "ar", dialect := some "egy",
    source_url := "https://facebook.com/grouptwo", source_type := SourceType.group,
    tags := [], categories := [], qa_scores := none,
    created_at := none, updated_at := none, status := "published" }

/-- Page-1 answer of a 13-article listing (pageSize 12). -/
def respPageOne : ArticleListResponse :=
  { articles := [articleOne], total := 13, page := 1, page_size := 12 }

/-- Page-2 answer of the same listing. -/
def respPageTwo : ArticleListResponse :=
  { articles := [articleTwo], total := 13, page := 2, page_size := 12 }

/-- Home state whose URL field holds only whitespace. -/
def blankSubmitState : HomeState :=
  { initialHomeState with processUrlField := "   " }

/-- Home state whose URL field holds a submittable URL. -/
def submitState : HomeState :=
  { initialHomeState with processUrlField := "https://facebook.com/pagename" }

/-- The interleaving of `fetchArticles` runs in the race scenario: the page-1
fetch starts, the page-2 fetch starts, page 2's response settles first, and
page 1's response settles last. -/
def staleRaceFinal : HomeState :=
  ((fetchArticlesSettle
      ((fetchArticlesSettle
          (fetchArticlesStart (fetchArticlesStart initialHomeState))
          (Except.ok respPageTwo)).1)
      (Except.ok respPageOne)).1)

/-- C1 counterexample: submitting a whitespace-only URL issues no network
call, but it also yields no `ValidationError` — no error or result value at
all: the handler returns with the state (including `processError` and
`processResult`, both `none`) unchanged. -/
theorem handleProcess_blank_noValidationError :
    (handleProcess blankSubmitState
        (Except.ok { success := true, article_id := some "a1",
                     message := "ok", qa_scores := none })).2.networkCalled = false ∧
    (handleProcess blankSubmitState
        (Except.ok { success := true, article_id := some "a1",
                     message := "ok", qa_scores := none })).1.processError = none ∧
    (handleProcess blankSubmitState
        (Except.ok { success := true, article_id := some "a1",
                     message := "ok", qa_scores := none })).1.processResult = none ∧
    (handleProcess blankSubmitState
        (Except.ok { success := true, article_id := some "a1",
                     message := "ok", qa_scores := none })).1 = blankSubmitState := by
  refine ⟨rfl, rfl, rfl, rfl⟩

/-- C1 (amended): if the trimmed URL is empty, the submit handler issues no
network call and returns synchronously with the view-model state unchanged;
no error value (`ValidationError` or otherwise) is produced — blank
submission is a silent no-op. -/
theorem handleProcess_blank_noop (s : HomeState) (o : Except String ProcessResponse)
    (h : jsTrim s.processUrlField = "") :
    handleProcess s o = (s, { networkCalled := false, refreshTriggered := false }) := by
  simp [handleProcess, h]

theorem handleProcess_blank_noop_witness :
    handleProcess blankSubmitState (Except.error "boom")
      = (blankSubmitState, { networkCalled := false, refreshTriggered := false }) :=
  handleProcess_blank_noop blankSubmitState (Except.error "boom") (by decide)

/-- C2: `fetchArticles` has no race guard — its continuation overwrites
`articles`/`total` unconditionally whenever a response settles.  In the
interleaving where the page-1 response arrives after the page-2 response,
the final state holds page 1's data, not page 2's, contradicting the
last-requested-wins contract. -/
theorem fetchArticles_staleResponseOverwrites :
    staleRaceFinal.articles = respPageOne.articles ∧
    staleRaceFinal.total = respPageOne.total ∧
    staleRaceFinal.articles ≠ respPageTwo.articles := by
  refine ⟨rfl, rfl, ?_⟩
  decide

/-- C3 counterexample: the by-id lookup rejects with the same single error
kind for a 404 answer as for a 500 answer — there is no distinct
`NotFoundError` class the caller could discriminate from a transport
failure. -/
theorem getArticle_404_sameKindAs_500 :
    getArticle "missing-id" { status := 404, data := articleOne }
      = Except.error (AxiosError.httpFailure 404 "Request failed with status code 404") ∧
    getArticle "missing-id" { status := 500, data := articleOne }
      = Except.error (AxiosError.httpFailure 500 "Request failed with status code 500") ∧
    errKind (AxiosError.httpFailure 404 "Request failed with status code 404")
      = errKind (AxiosError.httpFailure 500 "Request failed with status code 500") := by
  refine ⟨rfl, rfl, rfl⟩

/-- C3 (amended): `getArticle` resolves exactly on a 2xx status; every
non-2xx status, 404 included, rejects with the one axios error kind,
carrying the status and its standard message.  No distinct `NotFoundError`
exists: a 404 is distinguishable from other failures only via the carried
status or message text, not by error kind. -/
theorem getArticle_errorTaxonomy (id : String) (resp : HttpArticleResponse) :
    (200 ≤ resp.status ∧ resp.status < 300 →
      getArticle id resp = Except.ok resp.data) ∧
    (resp.status < 200 ∨ 300 ≤ resp.status →
      getArticle id resp
        = Except.error (AxiosError.httpFailure resp.status (axiosMessage resp.status)) ∧
      errKind (AxiosError.httpFailure resp.status (axiosMessage resp.status))
        = "AxiosError") := by
  constructor
  · intro h
    have hv : validateStatus resp.status = true := by
      simp only [validateStatus, Bool.and_eq_true, decide_eq_true_eq]
      omega
    simp [getArticle, hv]
  · intro h
    have hv : validateStatus resp.status = false := by
      simp only [validateStatus, Bool.and_eq_false_iff, decide_eq_false_iff_not]
      omega
    simp [getArticle, hv, errKind]

theorem getArticle_errorTaxonomy_witness :
    getArticle "abc" { status := 200, data := articleOne } = Except.ok articleOne ∧
    getArticle "missing" { status := 404, data := articleOne }
      = Except.error (AxiosError.httpFailure 404 (axiosMessage 404)) :=
  ⟨(getArticle_errorTaxonomy "abc" { status := 200, data := articleOne }).1 (by decide),
   ((getArticle_errorTaxonomy "missing" { status := 404, data := articleOne }).2
      (by decide)).1⟩

/-- C4: when a list/search fetch fails, the previously held `articles` and
`total` are left untouched, `loading` returns to `false`, and the failure is
reported (the catch block logs it) rather than escaping — the settle
function is total, so the view never crashes. -/
theorem fetchArticles_failurePreservesSnapshot (s : HomeState) (e : String) :
    (fetchArticlesSettle s (Except.error e)).1.articles = s.articles ∧
    (fetchArticlesSettle s (Except.error e)).1.total = s.total ∧
    (fetchArticlesSettle s (Except.error e)).1.loading = false ∧
    (fetchArticlesSettle s (Except.error e)).2
      = ["Failed to fetch articles: " ++ e] :=
  ⟨rfl, rfl, rfl, rfl⟩

/-- C5 counterexample: with `total = 30` (last valid page
`totalPages 30 = 3`) and current page `5`, the Next handler yields
`min 3 6 = 3`: neither a no-op (the claim's case `p = ceil(total/pageSize)`
does not apply since `5 ≠ 3`) nor the claimed increment to `6`. -/
theorem nextPage_clamp_counterexample :
    totalPages 30 = 3 ∧ (5 : Nat) ≠ totalPages 30 ∧
    nextPage 30 5 = 3 ∧ nextPage 30 5 ≠ 5 + 1 ∧ nextPage 30 5 ≠ 5 := by
  decide

/-- C5 (amended): Previous computes `max 1 (p-1)`: a no-op at `p = 1` and a
decrement for `p ≥ 2`; Next computes `min (totalPages total) (p+1)`: an
increment while `p < totalPages total` and a clamp down to
`totalPages total` whenever `p ≥ totalPages total` (a no-op only at
`p = totalPages total`).  For `1 ≤ p ≤ totalPages total`, both navigations
keep the page within `[1, totalPages total]`. -/
theorem pagination_clamped (total p : Nat) :
    (p = 1 → prevPage p = p) ∧
    (2 ≤ p → prevPage p = p - 1) ∧
    (p < totalPages total → nextPage total p = p + 1) ∧
    (totalPages total ≤ p → nextPage total p = totalPages total) ∧
    (1 ≤ p → p ≤ totalPages total →
      1 ≤ prevPage p ∧ prevPage p ≤ totalPages total ∧
      1 ≤ nextPage total p ∧ nextPage total p ≤ totalPages total) := by
  refine ⟨?_, ?_, ?_, ?_, ?_⟩
  · intro h; subst h; rfl
  · intro h; simp only [prevPage]; omega
  · intro h; simp only [nextPage]; omega
  · intro h; simp only [nextPage]; omega
  · intro h1 h2
    refine ⟨?_, ?_, ?_, ?_⟩ <;> simp only [prevPage, nextPage] <;> omega

theorem pagination_clamped_witness :
    prevPage 2 = 1 ∧ nextPage 30 2 = 3 ∧ nextPage 30 3 = 3 :=
  ⟨(pagination_clamped 30 2).2.1 (by decide),
   (pagination_clamped 30 2).2.2.1 (by decide),
   (pagination_clamped 30 3).2.2.2.1 (by decide)⟩

/-- C6: with a non-blank URL, a submission that settles in failure (a thrown
error, or a result with `success = false`) leaves the URL field untouched
and puts the failure message into the blocks rendered next to the form; a
successful result clears the URL field and triggers the list refresh.
Beyond the result/error/processing fields and that refresh effect, the
handler leaves the view-model (articles, page, total, loading) unchanged. -/
theorem handleProcess_frame (s : HomeState) (o : Except String ProcessResponse)
    (h : jsTrim s.processUrlField ≠ "") :
    (∀ m, o = Except.error m →
      (handleProcess s o).1.processUrlField = s.processUrlField ∧
      (handleProcess s o).1.processError = some m ∧
      formMessages (handleProcess s o).1 = [m] ∧
      (handleProcess s o).2.refreshTriggered = false) ∧
    (∀ r, o = Except.ok r → r.success = false →
      (handleProcess s o).1.processUrlField = s.processUrlField ∧
      (handleProcess s o).1.processResult = some r ∧
      formMessages (handleProcess s o).1 = [r.message] ∧
      (handleProcess s o).2.refreshTriggered = false) ∧
    (∀ r, o = Except.ok r → r.success = true →
      (handleProcess s o).1.processUrlField = "" ∧
      (handleProcess s o).2.refreshTriggered = true) ∧
    ((handleProcess s o).1.articles = s.articles ∧
     (handleProcess s o).1.page = s.page ∧
     (handleProcess s o).1.total = s.total ∧
     (handleProcess s o).1.loading = s.loading) := by
  refine ⟨?_, ?_, ?_, ?_⟩
  · rintro m rfl
    simp [handleProcess, h, formMessages]
  · rintro r rfl hr
    simp [handleProcess, h, hr, formMessages]
  · rintro r rfl hr
    simp [handleProcess, h, hr]
  · cases o with
    | ok r =>
        cases hr : r.success <;> simp [handleProcess, h, hr]
    | error m => simp [handleProcess, h]

theorem handleProcess_frame_witness :
    (handleProcess submitState (Except.error "Failed to process URL")).1.processUrlField
        = submitState.processUrlField ∧
    (handleProcess submitState (Except.error "Failed to process URL")).1.processError
        = some "Failed to process URL" ∧
    formMessages (handleProcess submitState (Except.error "Failed to process URL")).1
        = ["Failed to process URL"] := by
  have h := (handleProcess_frame submitState (Except.error "Failed to process URL")
      (by decide)).1 "Failed to process URL" rfl
  exact ⟨h.1, h.2.1, h.2.2.1⟩

/-- C7 counterexample: a missing id and a repository failure whose carried
message happens to be the same text produce literally identical detail
states — the error is stored as a plain message string, so the two causes
are not distinguishable error kinds. -/
theorem fetchArticle_kinds_indistinguishable :
    (fetchArticle none (Except.ok articleOne)).1
      = (fetchArticle (some "a1")
          (Except.error (AxiosError.httpFailure 500 "Article ID not provided"))).1 := by
  rfl

/-- C7 (amended): a missing or empty id immediately yields the fixed
error state (message `Article ID not provided`) with no network call, and
that state renders the "Article Not Found" view; a repository failure for a
present id renders the same "Article Not Found" view carrying the failure's
message.  The error is a plain string, not a distinct `MissingIdError` /
`NotFoundError` kind. -/
theorem fetchArticle_missingId (id : Option String)
    (o : Except AxiosError Article) (e : AxiosError) :
    (idMissing id = true →
      fetchArticle id o
        = ({ article := none, loading := false,
             error := some "Article ID not provided" }, false) ∧
      renderDetail (fetchArticle id o).1
        = DetailView.notFoundView "Article ID not provided") ∧
    (idMissing id = false →
      renderDetail (fetchArticle id (Except.error e)).1
        = DetailView.notFoundView (errMessage e)) := by
  constructor
  · intro h
    constructor
    · simp [fetchArticle, h]
    · simp [fetchArticle, h, renderDetail]
  · intro h
    simp [fetchArticle, h, renderDetail]

theorem fetchArticle_missingId_witness :
    fetchArticle none (Except.ok articleOne)
      = ({ article := none, loading := false,
           error := some "Article ID not provided" }, false) ∧
    renderDetail (fetchArticle (some "a1")
        (Except.error (AxiosError.httpFailure 404 (axiosMessage 404)))).1
      = DetailView.notFoundView (axiosMessage 404) :=
  ⟨((fetchArticle_missingId none (Except.ok articleOne)
      (AxiosError.httpFailure 404 (axiosMessage 404))).1 rfl).1,
   (fetchArticle_missingId (some "a1")
      (Except.error (AxiosError.httpFailure 404 (axiosMessage 404)))
      (AxiosError.httpFailure 404 (axiosMessage 404))).2 rfl⟩

/-- C8 counterexample: the language badge shows `English` for the unmapped
code `fr` — it does not default to the raw code. -/
theorem languageLabel_unmapped_counterexample :
    languageLabel "fr" = "English" ∧ languageLabel "fr" ≠ "fr" := by
  refine ⟨rfl, ?_⟩
  decide

/-- C8 (amended): the language label is the pure two-way conditional of the
source: `العربية` for the code `ar` and `English` for every other code —
unmapped codes display `English`, never the raw code. -/
theorem languageLabel_fixed (lang : String) :
    (lang = "ar" → languageLabel lang = "العربية") ∧
    (lang ≠ "ar" → languageLabel lang = "English") := by
  constructor
  · intro h; simp [languageLabel, h]
  · intro h; simp [languageLabel, h]

theorem languageLabel_fixed_witness :
    languageLabel "ar" = "العربية" ∧ languageLabel "en" = "English" :=
  ⟨(languageLabel_fixed "ar").1 rfl, (languageLabel_fixed "en").2 (by decide)⟩

/-- C9: the list-card summary is the source string itself when its length is
within the 150-character budget, and its first 150 characters followed by
the ellipsis `...` otherwise; `displaySummary` is a pure function of the
source string, which is never mutated. -/
theorem displaySummary_truncation (s : String) :
    (s.length ≤ 150 → displaySummary s = s) ∧
    (150 < s.length → displaySummary s = s.take 150 ++ "...") := by
  constructor
  · intro h
    simp only [displaySummary]
    rw [if_neg (by omega)]
  · intro h
    simp only [displaySummary]
    rw [if_pos h]

/-- A concrete 151-character summary. -/
def longSummary : String := String.mk (List.replicate 151 'a')

set_option maxRecDepth 4000 in
theorem displaySummary_truncation_witness :
    displaySummary "hi" = "hi" ∧
    displaySummary longSummary = longSummary.take 150 ++ "..." :=
  ⟨(displaySummary_truncation "hi").1 (by decide),
   (displaySummary_truncation longSummary).2 (by decide)⟩

/-- C10: in the Quality Scores card, the Redundancy row is the single row
whose bar color applies `getScoreColor` to the inverted value
`100 - redundancy` while still printing the raw redundancy value next to the
bar; the four other rows color their bars from the raw metric.
`getScoreColor` is the fixed three-band mapping: `#10b981` for scores
`≥ 75`, `#f59e0b` for scores in `[50, 75)`, `#ef4444` below `50`. -/
theorem scoreItems_redundancyInverted (qa : QAScores) (x : Rat) :
    ((scoreItems qa).filter (fun it => it.label == "Redundancy")).map
        (fun it => (it.color, it.value))
      = [(getScoreColor (100 - qa.redundancy), qa.redundancy)] ∧
    ((scoreItems qa).filter (fun it => it.label != "Redundancy")).map
        (fun it => it.color)
      = [getScoreColor qa.readability, getScoreColor qa.coherence,
         getScoreColor qa.neutrality, getScoreColor qa.human_likeness] ∧
    (75 ≤ x → getScoreColor x = "#10b981") ∧
    (50 ≤ x → x < 75 → getScoreColor x = "#f59e0b") ∧
    (x < 50 → getScoreColor x = "#ef4444") := by
  refine ⟨rfl, rfl, ?_, ?_, ?_⟩
  · intro h
    simp only [getScoreColor]
    rw [if_pos h]
  · intro h1 h2
    simp only [getScoreColor]
    rw [if_neg (not_le.mpr h2), if_pos h1]
  · intro h
    have h75 : ¬ (75 : Rat) ≤ x := not_le.mpr (lt_trans h (by norm_num))
    have h50 : ¬ (50 : Rat) ≤ x := not_le.mpr h
    simp only [getScoreColor]
    rw [if_neg h75, if_neg h50]

/-- A concrete score record: redundancy 20 (inverted: 80). -/
def sampleQA : QAScores :=
  { readability := 80, coherence := 70, redundancy := 20, neutrality := 90,
    human_likeness := 85, passed := true, failed_metrics := [] }

theorem scoreItems_redundancyInverted_witness :
    ((scoreItems sampleQA).filter (fun it => it.label == "Redundancy")).map
        (fun it => (it.color, it.value))
      = [(getScoreColor (100 - sampleQA.redundancy), sampleQA.redundancy)] ∧
    getScoreColor 80 = "#10b981" ∧
    getScoreColor 60 = "#f59e0b" ∧
    getScoreColor 30 = "#ef4444" :=
  ⟨(scoreItems_redundancyInverted sampleQA 80).1,
   (scoreItems_redundancyInverted sampleQA 80).2.2.1 (by norm_num),
   (scoreItems_redundancyInverted sampleQA 60).2.2.2.1 (by norm_num) (by norm_num),
   (scoreItems_redundancyInverted sampleQA 30).2.2.2.2 (by norm_num)⟩
